import Mathlib

/-!
Verification of the duplicate-sample resolution algorithm of snsTools
(src/snsTools/duplicate_resolver.py) against its natural-language
specification.

The module shallowly embeds the three functions of the file,
faithfully modelling the pandas operations they use:

* a DataFrame is a list of column names together with a list of rows,
  each row a list of cells;
* a cell is either the null marker NaN, a string, or an integer
  (integers appear only in the temporary index column produced by
  reset_index);
* fallible pandas operations (KeyError on a missing column,
  AttributeError on a missing attribute) are modelled with Except.

String operations are modelled on the character lists underlying
Lean strings, which coincides with Python semantics (per-character
slicing and code-point comparison).
-/

/-- Cell of a dataframe: the null marker (NaN), a string value, or an
integer (used only for the temporary index column of reset_index). -/
inductive Cell where
  | null
  | str (s : String)
  | nat (n : Nat)
deriving DecidableEq, Repr

/-- Python str() of a cell, as far as the code observes it: str(NaN)
is the four characters nan, and a string is its own representation. -/
def cellStr : Cell → String
  | Cell.null => "nan"
  | Cell.str s => s
  | Cell.nat n => Nat.repr n

/-- Python equality between two cells: NaN compares unequal to
everything, including itself. -/
def pyEq : Cell → Cell → Bool
  | Cell.str a, Cell.str b => a = b
  | Cell.nat a, Cell.nat b => a = b
  | _, _ => false

/-- Dataframe: named columns and rows of cells (row i, column j is
rows[i][j]). -/
structure DataFrame where
  cols : List String
  rows : List (List Cell)
deriving DecidableEq, Repr

/-- Errors surfaced by the pandas operations used in the source:
KeyError for a missing column label, AttributeError for a missing
dataframe attribute. -/
inductive DfError where
  | keyError (c : String)
  | attrError (c : String)
deriving DecidableEq, Repr

/-- Model of DataFrame.columns.get_loc: position of the first column
with the given name. -/
def findCol (df : DataFrame) (c : String) : Option Nat :=
  df.cols.findIdx? (fun x => x = c)

/-- Positions of a list of column names, raising KeyError at the first
absent one; models the get_loc list comprehensions of lines 28 and 103. -/
def getLocs (df : DataFrame) (names : List String) : Except DfError (List Nat) :=
  match names with
  | [] => Except.ok []
  | c :: rest =>
    match findCol df c with
    | none => Except.error (DfError.keyError c)
    | some i =>
      match getLocs df rest with
      | Except.error e => Except.error e
      | Except.ok is => Except.ok (i :: is)

/-- Cells of the named column, in row order (empty when the column is
absent); a convenience observer used in the theorems. -/
def colCells (df : DataFrame) (c : String) : List Cell :=
  match findCol df c with
  | some i => df.rows.map (fun r => r.getD i Cell.null)
  | none => []

/-- Cell of a row at a named column of a column list (null when absent);
a convenience observer used in the theorems. -/
def cellAtName (cols : List String) (r : List Cell) (c : String) : Cell :=
  match cols.findIdx? (fun x => x = c) with
  | some i => r.getD i Cell.null
  | none => Cell.null

/-- Dash-to-NaN replacement of a single cell, from the table-wide
replacement of line 89. -/
def replaceCell (c : Cell) : Cell :=
  if c = Cell.str "-" then Cell.null else c

/-- Model of line 89: df.replace replaces every dash cell of the whole
table with NaN. -/
def replaceDashNan (df : DataFrame) : DataFrame :=
  DataFrame.mk df.cols (df.rows.map (List.map replaceCell))

/-- Default dup_ends list of the source (lines 4 and 68). -/
def dupEndsDefault : List String := ["_2", "_3", "_pool7A", "_pool10A"]

/-- Python character count of a string. -/
def sLen (s : String) : Nat := s.data.length

/-- Python s.endswith(suffix). -/
def sEndsWith (s suf : String) : Bool := List.isSuffixOf suf.data s.data

/-- Python slice s[0 : len(s) - n], the .str slice of line 94. -/
def sDropRight (s : String) (n : Nat) : String :=
  String.mk (s.data.take (s.data.length - n))

/-- Condition of line 93: the identity cell is a string that ends with
the given dup suffix and whose total length exceeds four characters.
On a non-string cell the pandas .str accessor yields NaN and the mask
does not select the row. -/
def dupCond (identCell : Cell) (dup : String) : Bool :=
  match identCell with
  | Cell.str s => sEndsWith s dup && decide (sLen s > 4)
  | _ => false

/-- Assignment to a possibly new column label with .ix: when the label
same is absent the assignment first appends the column, null in every
row. -/
def ensureSame (df : DataFrame) : DataFrame :=
  if "same" ∈ df.cols then df
  else DataFrame.mk (df.cols ++ ["same"]) (df.rows.map (fun r => r ++ [Cell.null]))

/-- Column list after the same column has been ensured; an observer
used to state the column-shape theorems. -/
def withSameCol (cs : List String) : List String :=
  if "same" ∈ cs then cs else cs ++ ["same"]

/-- Row part of the mask assignment of line 94: when the identity cell
is a string selected by the mask of line 93, the same cell at position
sIx is set to the identity string with the suffix removed. -/
def applyDupRow (identIx sIx : Nat) (dup : String) (r : List Cell) : List Cell :=
  match r.getD identIx Cell.null with
  | Cell.str s =>
    if sEndsWith s dup && decide (sLen s > 4)
    then r.set sIx (Cell.str (sDropRight s (sLen dup)))
    else r
  | _ => r

/-- Model of line 94 for a single dup suffix: rows selected by the mask
get their same cell set to the identity string with the suffix removed. -/
def applyDup (identIx : Nat) (dup : String) (df : DataFrame) : DataFrame :=
  match findCol (ensureSame df) "same" with
  | some sIx =>
    DataFrame.mk (ensureSame df).cols
      ((ensureSame df).rows.map (applyDupRow identIx sIx dup))
  | none => ensureSame df

/-- Model of the loop of lines 92 to 94: each dup suffix in order applies
its mask assignment; the identity column is looked up anew inside the
loop, as the mask expression does, raising KeyError when absent. -/
def fillSameM (dup_ends : List String) (column : String) (df : DataFrame) :
    Except DfError DataFrame :=
  match dup_ends with
  | [] => Except.ok df
  | dup :: rest =>
    match findCol df column with
    | none => Except.error (DfError.keyError column)
    | some i => fillSameM rest column (applyDup i dup df)

/-- Row part of line 97: a null same cell receives the identity cell. -/
def combineRow (sIx identIx : Nat) (r : List Cell) : List Cell :=
  if r.getD sIx Cell.null = Cell.null then r.set sIx (r.getD identIx Cell.null) else r

/-- Model of line 97: same.combine_first(df[column]) writes the identity
cell into every null same cell. -/
def combineSame (sIx identIx : Nat) (df : DataFrame) : DataFrame :=
  DataFrame.mk df.cols (df.rows.map (combineRow sIx identIx))

/-- Code-point comparison of two character lists, the Python string
order used by sort_values. -/
def charsCmp : List Char → List Char → Ordering
  | [], [] => Ordering.eq
  | [], _ :: _ => Ordering.lt
  | _ :: _, [] => Ordering.gt
  | a :: as, b :: bs =>
    if a.toNat < b.toNat then Ordering.lt
    else if b.toNat < a.toNat then Ordering.gt
    else charsCmp as bs

/-- Comparison of two sort-key cells for one by column: na_position
last places a null key after every other key in either direction, and
string keys compare by code points, reversed when ascending is false. -/
def cmpCellKey (asc : Bool) (a b : Cell) : Ordering :=
  match a, b with
  | Cell.null, Cell.null => Ordering.eq
  | Cell.null, _ => Ordering.gt
  | _, Cell.null => Ordering.lt
  | x, y =>
    if asc then charsCmp (cellStr x).data (cellStr y).data
    else charsCmp (cellStr y).data (cellStr x).data

/-- Lexicographic row order of line 100: primary key the same column
always descending, secondary key the identity column with the pass
direction. -/
def rowLe (sIx cIx : Nat) (order : Bool) (r1 r2 : List Cell) : Bool :=
  ((cmpCellKey false (r1.getD sIx Cell.null) (r2.getD sIx Cell.null)).then
   (cmpCellKey order (r1.getD cIx Cell.null) (r2.getD cIx Cell.null))) ≠ Ordering.gt

/-- Stable insertion of an element into a sorted list, keeping it in
front of elements it ties with that came later in the original list. -/
def insertSorted {α : Type} (le : α → α → Bool) (a : α) : List α → List α
  | [] => [a]
  | b :: l => if le a b then a :: b :: l else b :: insertSorted le a l

/-- Stable sort; sort_values with several by columns lexsorts, which is
stable, so ties keep their original relative order. -/
def stableSort {α : Type} (le : α → α → Bool) : List α → List α
  | [] => []
  | a :: l => insertSorted le a (stableSort le l)

/-- Model of line 100: sort_values(by same and the identity column,
ascending False and order).reset_index(), which prepends an index
column holding each row's position before the sort. -/
def sortReset (sIx cIx : Nat) (order : Bool) (df : DataFrame) : DataFrame :=
  DataFrame.mk ("index" :: df.cols)
    ((stableSort (fun p1 p2 => rowLe sIx cIx order p1.2 p2.2) df.rows.enum).map
      (fun p => Cell.nat p.1 :: p.2))

/-- Forward fill with limit one of a two-row slice at the given column
positions: a null cell of the lower row is filled from the upper row
when that cell is not null; the upper row is unchanged. -/
def ffillRow (colIx : List Nat) (prev cur : List Cell) : List Cell :=
  match colIx with
  | [] => cur
  | i :: rest =>
    ffillRow rest prev
      (if cur.getD i Cell.null = Cell.null && !(prev.getD i Cell.null = Cell.null)
       then cur.set i (prev.getD i Cell.null) else cur)

/-- Single iteration num of the loop of lines 106 to 113: when the same
cells at positions num and num plus one are equal by Python equality
(so never null), the lower row of the pair is forward filled from the
upper row at the reconciliation positions. -/
def fillStep (sIx : Nat) (colIx : List Nat) (rows : List (List Cell)) (num : Nat) :
    List (List Cell) :=
  if pyEq ((rows.getD num []).getD sIx Cell.null)
      ((rows.getD (num + 1) []).getD sIx Cell.null) then
    rows.set (num + 1) (ffillRow colIx (rows.getD num []) (rows.getD (num + 1) []))
  else rows

/-- Iterations of the adjacency loop over a list of pair positions; the
rows are updated in place as the loop advances. -/
def fillSteps (sIx : Nat) (colIx : List Nat) (nums : List Nat)
    (rows : List (List Cell)) : List (List Cell) :=
  match nums with
  | [] => rows
  | num :: rest => fillSteps sIx colIx rest (fillStep sIx colIx rows num)

/-- Model of the loop of lines 106 to 113, iterating num over
range(0, df.shape[0] - 1). -/
def fillLoop (sIx : Nat) (colIx : List Nat) (rows : List (List Cell)) :
    List (List Cell) :=
  fillSteps sIx colIx (List.range (rows.length - 1)) rows

/-- Model of line 116: df.drop removes every column labelled index,
together with the corresponding cell of each row. -/
def dropIndexCol (df : DataFrame) : DataFrame :=
  DataFrame.mk (df.cols.filter (fun c => c ≠ "index"))
    (df.rows.map (fun r =>
      ((df.cols.zip r).filter (fun p => p.1 ≠ "index")).map (fun p => p.2)))

/-- Single body of duplicate_column_checker (lines 88 to 116): replace
dashes, mark duplicates in the same column, combine_first, sort and
reset the index, adjacent forward fill, drop the index column. -/
def checkerPass (df : DataFrame) (columns_names : List String) (order : Bool)
    (dup_ends : List String) (column : String) : Except DfError DataFrame :=
  match fillSameM dup_ends column (replaceDashNan df) with
  | Except.error e => Except.error e
  | Except.ok df2 =>
    match findCol df2 "same" with
    | none => Except.error (DfError.attrError "same")
    | some sIx =>
      match findCol df2 column with
      | none => Except.error (DfError.keyError column)
      | some cIx =>
        match getLocs (sortReset sIx cIx order (combineSame sIx cIx df2)) columns_names with
        | Except.error e => Except.error e
        | Except.ok colIx =>
          match findCol (sortReset sIx cIx order (combineSame sIx cIx df2)) "same" with
          | none => Except.error (DfError.keyError "same")
          | some sIx4 =>
            Except.ok (dropIndexCol (DataFrame.mk
              (sortReset sIx cIx order (combineSame sIx cIx df2)).cols
              (fillLoop sIx4 colIx
                (sortReset sIx cIx order (combineSame sIx cIx df2)).rows)))

/-- Model of duplicate_column_checker (lines 68 to 119). The recursive
call of line 119 passes neither order nor column, so every later pass
sorts ascending and identifies duplicates in the default column Sample. -/
def duplicate_column_checker (df : DataFrame) (columns_names : List String)
    (order : Bool) (recurs : Nat) (dup_ends : List String) (column : String) :
    Except DfError DataFrame :=
  match recurs with
  | 0 => Except.ok df
  | r + 1 =>
    match checkerPass df columns_names order dup_ends column with
    | Except.error e => Except.error e
    | Except.ok df6 =>
      duplicate_column_checker df6 columns_names true r dup_ends "Sample"

/-- Set of values of line 56: the cells of the row at the given
positions, with every cell whose str() is nan discarded, deduplicated
(the Python set is queried only for its size and for dash membership,
so a duplicate-free list models it). -/
def all_row_cell_values (x : List Cell) (col_ix : List Nat) : List Cell :=
  ((col_ix.map (fun i => x.getD i Cell.null)).filter
    (fun z => cellStr z ≠ "nan")).dedup

/-- Decision part of identify_null_data (lines 59 to 64): False exactly
when the deduplicated non-missing values are a single dash or nothing. -/
def identify_null_data (x : List Cell) (col_ix : List Nat) : Bool :=
  if (all_row_cell_values x col_ix).length = 1 ∧
      Cell.str "-" ∈ all_row_cell_values x col_ix then false
  else if (all_row_cell_values x col_ix).length = 0 then false
  else true

/-- Model of duplicate_resolver (lines 4 to 37). The call of line 25
passes neither dup_ends nor order nor recurs, so the checker always runs
with the default suffix list and two passes; the dup_ends parameter of
the resolver itself is therefore unused. The second component of the
result models the single warning of line 35, reduced to its variable
part: the space-joined identity values of the removed rows (the
surrounding fixed text of the message is elided). When warn is unset no
warning is emitted. -/
def duplicate_resolver (df : DataFrame) (col : String) (column_list : List String)
    (_dup_ends : List String) (warn : Bool) :
    Except DfError (DataFrame × Option String) :=
  match duplicate_column_checker df column_list false 2 dupEndsDefault col with
  | Except.error e => Except.error e
  | Except.ok df1 =>
    match getLocs df1 column_list with
    | Except.error e => Except.error e
    | Except.ok colListIx =>
      if warn then
        match findCol df1 col with
        | none => Except.error (DfError.keyError col)
        | some cix =>
          Except.ok (DataFrame.mk df1.cols
              (df1.rows.filter (fun r => identify_null_data r colListIx)),
            some (String.intercalate " "
              ((df1.rows.filter (fun r => !(identify_null_data r colListIx))).map
                (fun r => cellStr (r.getD cix Cell.null)))))
      else
        Except.ok (DataFrame.mk df1.cols
            (df1.rows.filter (fun r => identify_null_data r colListIx)),
          none)

/-- Predicate written from the words of the amended claim C2: every
reconciliation cell of the row is missing (null, or a cell whose string
form is nan), or at least one is not missing and all the non-missing
ones are the dash placeholder. -/
def specRowDroppable (x : List Cell) (col_ix : List Nat) : Bool :=
  (col_ix.map (fun i => x.getD i Cell.null)).all (fun c => cellStr c = "nan") ||
    (!((col_ix.map (fun i => x.getD i Cell.null)).filter
        (fun c => cellStr c ≠ "nan")).isEmpty &&
      ((col_ix.map (fun i => x.getD i Cell.null)).filter
        (fun c => cellStr c ≠ "nan")).all (fun c => c = Cell.str "-"))

/-! Concrete input tables used by the per-claim theorems and witnesses. -/

/-- Table of the claim C1 example: rows GH, GH_2 and GHI. -/
def dfC1 : DataFrame :=
  DataFrame.mk ["Sample", "pheno"]
    [[Cell.str "GH", Cell.str "a"], [Cell.str "GH_2", Cell.str "b"],
     [Cell.str "GHI", Cell.str "c"]]

/-- Control table for claim C1 with names long enough to pass the
length guard of line 93. -/
def dfC1b : DataFrame :=
  DataFrame.mk ["Sample", "pheno"]
    [[Cell.str "ABC", Cell.str "a"], [Cell.str "ABC_2", Cell.str "b"]]

/-- Table for the claim C2 counterexample: the single reconciliation
cell holds the literal string nan, and a non-reconciliation column
holds data. -/
def dfC2 : DataFrame :=
  DataFrame.mk ["Sample", "f1", "extra"]
    [[Cell.str "ABCDE", Cell.str "nan", Cell.str "z"]]

/-- Table for the claim C2 witness: one row with data, one row with a
null reconciliation cell. -/
def dfC2w : DataFrame :=
  DataFrame.mk ["Sample", "f1"]
    [[Cell.str "ABCDE", Cell.str "x"], [Cell.str "FGHIJ", Cell.null]]

/-- Table of the claim C3 scenario: a canonical row with field1 x and a
duplicate row with field2 y, under names long enough to form a group. -/
def dfC3 : DataFrame :=
  DataFrame.mk ["Sample", "field1", "field2"]
    [[Cell.str "ABCD", Cell.str "x", Cell.null],
     [Cell.str "ABCD_2", Cell.null, Cell.str "y"]]

/-- Table for the claim C4 witness: a duplicate pair and a row that is
dropped. -/
def dfC4w : DataFrame :=
  DataFrame.mk ["Sample", "f1"]
    [[Cell.str "ABCD", Cell.str "x"], [Cell.str "ABCD_2", Cell.null],
     [Cell.str "KLMNO", Cell.null]]

/-- Table for the claim C5 counterexample: a dash in a column outside
the reconciliation set. -/
def dfC5 : DataFrame :=
  DataFrame.mk ["Sample", "f1", "notes"]
    [[Cell.str "ABCDE", Cell.str "x", Cell.str "-"]]

/-- Table for the claim C5 witness. -/
def dfC5w : DataFrame :=
  DataFrame.mk ["Sample", "f1", "notes"]
    [[Cell.str "ABCD", Cell.str "x", Cell.str "p"],
     [Cell.str "ABCD_2", Cell.null, Cell.str "q"]]

/-- Table for the claim C6 counterexample and witness: one duplicate
row. -/
def dfC6 : DataFrame :=
  DataFrame.mk ["Sample", "f1"] [[Cell.str "ABCDE_2", Cell.str "x"]]

/-- Table for the claim C7 counterexample: nothing is dropped. -/
def dfC7 : DataFrame :=
  DataFrame.mk ["Sample", "f1"] [[Cell.str "ABCDE", Cell.str "x"]]

/-- Table for the claim C7 witness: one row kept, one dropped. -/
def dfC7w : DataFrame :=
  DataFrame.mk ["Sample", "f1"]
    [[Cell.str "ABCDE", Cell.str "x"], [Cell.str "FGHIJ", Cell.null]]

/-- Table for the claim C8 counterexample (empty reconciliation list)
and for the missing-column witnesses. -/
def dfC8 : DataFrame :=
  DataFrame.mk ["Sample", "f1"] [[Cell.str "ABCDE", Cell.str "x"]]

/-- Table of the claim C9 failing input: the identity column is named
id rather than Sample. -/
def dfC9 : DataFrame :=
  DataFrame.mk ["id", "f1"] [[Cell.str "ABCDE", Cell.str "x"]]

/-- Table for the claim C10 witness: a row whose reconciliation cell is
the literal string nan next to a row with data. -/
def dfC10 : DataFrame :=
  DataFrame.mk ["Sample", "f1"]
    [[Cell.str "ABCDE", Cell.str "nan"], [Cell.str "FGHIJ", Cell.str "x"]]

/-! Helper lemmas about list access and the findIdx? primitive. -/

theorem findIdx_points {l : List String} {p : String → Bool} {i : Nat}
    (h : l.findIdx? p = some i) : ∃ x, l[i]? = some x ∧ p x = true := by
  induction l generalizing i with
  | nil => simp [List.findIdx?] at h
  | cons a l ih =>
    rw [List.findIdx?_cons] at h
    by_cases hp : p a
    · rw [if_pos hp] at h
      cases h
      exact ⟨a, by simp, hp⟩
    · rw [if_neg (by simp [hp]), List.findIdx?_succ] at h
      cases hfi : l.findIdx? p with
      | none => rw [hfi] at h; cases h
      | some j =>
        rw [hfi] at h
        simp only [Option.map_some'] at h
        cases h
        obtain ⟨x, hx, hpx⟩ := ih hfi
        exact ⟨x, by simpa using hx, hpx⟩

theorem findColName {cols : List String} {n : String} {i : Nat}
    (h : cols.findIdx? (fun x => x = n) = some i) : cols[i]? = some n := by
  obtain ⟨x, hx, hpx⟩ := findIdx_points h
  simp only [decide_eq_true_eq] at hpx
  exact hpx ▸ hx

theorem getD_map_replaceCell (r : List Cell) (i : Nat) :
    (r.map replaceCell).getD i Cell.null = replaceCell (r.getD i Cell.null) := by
  simp only [List.getD_eq_getElem?_getD, List.getElem?_map]
  cases r[i]? <;> simp [replaceCell]

theorem getD_append_null (r : List Cell) (i : Nat) :
    (r ++ [Cell.null]).getD i Cell.null = r.getD i Cell.null := by
  simp only [List.getD_eq_getElem?_getD, List.getElem?_append]
  split
  · rfl
  · rename_i hlt
    have hr : r[i]? = none := List.getElem?_eq_none (by omega)
    rw [hr]
    cases hi : i - r.length with
    | zero => simp
    | succ k => simp

theorem getD_set_ne (l : List Cell) (i j : Nat) (a : Cell) (h : i ≠ j) :
    (l.set i a).getD j Cell.null = l.getD j Cell.null := by
  simp only [List.getD_eq_getElem?_getD, List.getElem?_set_ne h]

/-! Helper lemmas about cellAtName under each table operation. -/

theorem cellAtName_nil_row (cols : List String) (n : String) :
    cellAtName cols [] n = Cell.null := by
  unfold cellAtName
  cases cols.findIdx? (fun x => x = n) <;> simp [List.getD_nil]

theorem cellAtName_map_replace (cols : List String) (r : List Cell) (n : String) :
    cellAtName cols (r.map replaceCell) n = replaceCell (cellAtName cols r n) := by
  unfold cellAtName
  cases h : cols.findIdx? (fun x => x = n) with
  | none => simp [replaceCell]
  | some i => exact getD_map_replaceCell r i

theorem cellAtName_append_same (cols : List String) (r : List Cell) (n : String)
    (hn : n ≠ "same") :
    cellAtName (cols ++ ["same"]) (r ++ [Cell.null]) n = cellAtName cols r n := by
  unfold cellAtName
  rw [List.findIdx?_append]
  have h2 : List.findIdx? (fun x => x = n) ["same"] = none := by
    rw [show (["same"] : List String) = "same" :: [] from rfl, List.findIdx?_cons]
    rw [if_neg (by simp only [decide_eq_true_eq]; exact fun h => hn h.symm)]
    simp [List.findIdx?]
  rw [h2]
  cases h : cols.findIdx? (fun x => x = n) with
  | none => rfl
  | some i => exact getD_append_null r i

theorem cellAtName_set_named (cols : List String) (r : List Cell) (n m : String)
    (sIx : Nat) (v : Cell) (hs : cols[sIx]? = some m) (hn : n ≠ m) :
    cellAtName cols (r.set sIx v) n = cellAtName cols r n := by
  unfold cellAtName
  cases h : cols.findIdx? (fun x => x = n) with
  | none => rfl
  | some i =>
    have hi : cols[i]? = some n := findColName h
    have hne : sIx ≠ i := by
      intro he
      subst he
      rw [hi] at hs
      exact hn (Option.some.inj hs)
    exact getD_set_ne r sIx i v hne

theorem cellAtName_cons_index (cols : List String) (r : List Cell) (x : Cell)
    (n : String) (hn : n ≠ "index") :
    cellAtName ("index" :: cols) (x :: r) n = cellAtName cols r n := by
  unfold cellAtName
  rw [List.findIdx?_cons,
    if_neg (by simp only [decide_eq_true_eq]; exact fun h => hn h.symm),
    List.findIdx?_succ]
  cases h : cols.findIdx? (fun x => x = n) with
  | none => rfl
  | some i => simp [List.getD_cons_succ]

theorem cellAtName_dropIndexRow (cols : List String) (r : List Cell) (n : String)
    (hn : n ≠ "index") :
    cellAtName (cols.filter (fun c => c ≠ "index"))
      (((cols.zip r).filter (fun p => p.1 ≠ "index")).map (fun p => p.2)) n =
      cellAtName cols r n := by
  induction cols generalizing r with
  | nil => simp [cellAtName, List.findIdx?]
  | cons c cs ih =>
    cases r with
    | nil =>
      simp only [List.zip_nil_right, List.filter_nil, List.map_nil]
      rw [cellAtName_nil_row, cellAtName_nil_row]
    | cons x xs =>
      rw [List.zip_cons_cons, List.filter_cons, List.filter_cons]
      by_cases hc : c = "index"
      · rw [if_neg (by simp [hc]), if_neg (by simp [hc])]
        subst hc
        rw [cellAtName_cons_index cs xs x n hn]
        exact ih xs
      · rw [if_pos (by simp [hc]), if_pos (by simp [hc]), List.map_cons]
        by_cases hcn : c = n
        · unfold cellAtName
          rw [List.findIdx?_cons, List.findIdx?_cons,
            if_pos (by simp [hcn]), if_pos (by simp [hcn])]
          rfl
        · have hrec := ih xs
          unfold cellAtName at hrec ⊢
          rw [List.findIdx?_cons, List.findIdx?_cons,
            if_neg (by simp [hcn]), if_neg (by simp [hcn]),
            List.findIdx?_succ, List.findIdx?_succ]
          cases h : (cs.filter (fun c => c ≠ "index")).findIdx? (fun x => x = n) with
          | none =>
            rw [h] at hrec
            cases h2 : cs.findIdx? (fun x => x = n) with
            | none => rfl
            | some j =>
              rw [h2] at hrec
              simpa [List.getD_cons_succ] using hrec
          | some i =>
            rw [h] at hrec
            cases h2 : cs.findIdx? (fun x => x = n) with
            | none =>
              rw [h2] at hrec
              simpa [List.getD_cons_succ] using hrec
            | some j =>
              rw [h2] at hrec
              simpa [List.getD_cons_succ] using hrec

/-! Helper lemmas about the stable sort and sortReset. -/

theorem insertSorted_perm {α : Type} (le : α → α → Bool) (a : α) (l : List α) :
    List.Perm (insertSorted le a l) (a :: l) := by
  induction l with
  | nil => exact List.Perm.refl _
  | cons b l ih =>
    unfold insertSorted
    by_cases h : le a b = true
    · rw [if_pos h]
    · rw [if_neg h]
      exact (ih.cons b).trans (List.Perm.swap a b l)

theorem stableSort_perm {α : Type} (le : α → α → Bool) (l : List α) :
    List.Perm (stableSort le l) l := by
  induction l with
  | nil => exact List.Perm.refl _
  | cons a l ih =>
    unfold stableSort
    exact (insertSorted_perm le a (stableSort le l)).trans (ih.cons a)

theorem sortReset_cols (sIx cIx : Nat) (o : Bool) (df : DataFrame) :
    (sortReset sIx cIx o df).cols = "index" :: df.cols := rfl

theorem sortReset_length (sIx cIx : Nat) (o : Bool) (df : DataFrame) :
    (sortReset sIx cIx o df).rows.length = df.rows.length := by
  unfold sortReset
  rw [List.length_map, (stableSort_perm _ _).length_eq, List.enum_length]

theorem sortReset_origin (sIx cIx : Nat) (o : Bool) (df : DataFrame) :
    ∀ r2 ∈ (sortReset sIx cIx o df).rows, ∃ r ∈ df.rows, ∃ k, r2 = Cell.nat k :: r := by
  intro r2 h2
  unfold sortReset at h2
  simp only [List.mem_map] at h2
  obtain ⟨⟨k, r⟩, hmem, rfl⟩ := h2
  have hmem2 : (k, r) ∈ df.rows.enum := ((stableSort_perm _ _).mem_iff).mp hmem
  rw [List.enum_eq_zip_range] at hmem2
  exact ⟨r, (List.of_mem_zip hmem2).2, k, rfl⟩

/-! Helper lemmas about the adjacency fill. -/

theorem ffillRow_getD_not_mem (colIx : List Nat) (a b : List Cell) (p : Nat)
    (hp : p ∉ colIx) :
    (ffillRow colIx a b).getD p Cell.null = b.getD p Cell.null := by
  induction colIx generalizing b with
  | nil => rfl
  | cons i rest ih =>
    have hpr : p ∉ rest := fun h => hp (List.mem_cons_of_mem _ h)
    have hpi : i ≠ p := fun h => hp (h ▸ List.mem_cons_self i rest)
    unfold ffillRow
    rw [ih _ hpr]
    split
    · exact getD_set_ne b i p _ hpi
    · rfl

theorem fillStep_origin (sIx : Nat) (colIx : List Nat) (rows : List (List Cell))
    (num : Nat) :
    ∀ r2 ∈ fillStep sIx colIx rows num, ∃ r1 ∈ rows,
      ∀ p, p ∉ colIx → r2.getD p Cell.null = r1.getD p Cell.null := by
  intro r2 h2
  unfold fillStep at h2
  split at h2
  · by_cases hlen : num + 1 < rows.length
    · rcases List.mem_or_eq_of_mem_set h2 with hmem | rfl
      · exact ⟨r2, hmem, fun p _ => rfl⟩
      · refine ⟨rows.getD (num + 1) [], ?_,
          fun p hp => ffillRow_getD_not_mem colIx _ _ p hp⟩
        rw [List.getD_eq_getElem _ _ hlen]
        exact List.getElem_mem hlen
    · rw [List.set_eq_of_length_le (by omega)] at h2
      exact ⟨r2, h2, fun p _ => rfl⟩
  · exact ⟨r2, h2, fun p _ => rfl⟩

theorem fillSteps_origin (sIx : Nat) (colIx : List Nat) (nums : List Nat) :
    ∀ rows, ∀ r2 ∈ fillSteps sIx colIx nums rows, ∃ r1 ∈ rows,
      ∀ p, p ∉ colIx → r2.getD p Cell.null = r1.getD p Cell.null := by
  induction nums with
  | nil => exact fun rows r2 h2 => ⟨r2, h2, fun p _ => rfl⟩
  | cons num rest ih =>
    intro rows r2 h2
    obtain ⟨r1, h1, heq⟩ := ih (fillStep sIx colIx rows num) r2 h2
    obtain ⟨r0, h0, heq0⟩ := fillStep_origin sIx colIx rows num r1 h1
    exact ⟨r0, h0, fun p hp => (heq p hp).trans (heq0 p hp)⟩

theorem fillStep_length (sIx : Nat) (colIx : List Nat) (rows : List (List Cell))
    (num : Nat) : (fillStep sIx colIx rows num).length = rows.length := by
  unfold fillStep
  split
  · exact List.length_set rows (num + 1) _
  · rfl

theorem fillSteps_length (sIx : Nat) (colIx : List Nat) (nums : List Nat) :
    ∀ rows, (fillSteps sIx colIx nums rows).length = rows.length := by
  induction nums with
  | nil => intro rows; rfl
  | cons num rest ih =>
    intro rows
    exact (ih (fillStep sIx colIx rows num)).trans (fillStep_length sIx colIx rows num)

theorem fillLoop_length (sIx : Nat) (colIx : List Nat) (rows : List (List Cell)) :
    (fillLoop sIx colIx rows).length = rows.length :=
  fillSteps_length sIx colIx _ rows

/-! Helper lemmas about the grouping operations. -/

theorem ensureSame_cols (df : DataFrame) : (ensureSame df).cols = withSameCol df.cols := by
  unfold ensureSame withSameCol
  split <;> rfl

theorem ensureSame_length (df : DataFrame) :
    (ensureSame df).rows.length = df.rows.length := by
  unfold ensureSame
  split
  · rfl
  · exact List.length_map _ _

theorem mem_withSameCol (cs : List String) : "same" ∈ withSameCol cs := by
  unfold withSameCol
  split
  · assumption
  · exact List.mem_append.mpr (Or.inr (List.mem_cons_self _ _))

theorem withSameCol_of_mem (cs : List String) (h : "same" ∈ cs) :
    withSameCol cs = cs := if_pos h

theorem withSameCol_idem (cs : List String) :
    withSameCol (withSameCol cs) = withSameCol cs :=
  withSameCol_of_mem _ (mem_withSameCol cs)

theorem ensureSame_origin (df : DataFrame) :
    ∀ r2 ∈ (ensureSame df).rows, ∃ r1 ∈ df.rows, ∀ n, n ≠ "same" →
      cellAtName (ensureSame df).cols r2 n = cellAtName df.cols r1 n := by
  intro r2 h2
  unfold ensureSame at h2 ⊢
  by_cases h : "same" ∈ df.cols
  · rw [if_pos h] at h2 ⊢
    exact ⟨r2, h2, fun n _ => rfl⟩
  · rw [if_neg h] at h2 ⊢
    obtain ⟨r1, h1, rfl⟩ := List.mem_map.mp h2
    exact ⟨r1, h1, fun n hn => cellAtName_append_same df.cols r1 n hn⟩

theorem applyDupRow_protected (cols : List String) (r : List Cell)
    (identIx sIx : Nat) (dup n : String) (hs : cols[sIx]? = some "same")
    (hn : n ≠ "same") :
    cellAtName cols (applyDupRow identIx sIx dup r) n = cellAtName cols r n := by
  unfold applyDupRow
  split
  · split
    · exact cellAtName_set_named cols r n "same" sIx _ hs hn
    · rfl
  · rfl

theorem applyDup_cols (identIx : Nat) (dup : String) (df : DataFrame) :
    (applyDup identIx dup df).cols = withSameCol df.cols := by
  unfold applyDup
  cases findCol (ensureSame df) "same" with
  | none => exact ensureSame_cols df
  | some sIx => exact ensureSame_cols df

theorem applyDup_length (identIx : Nat) (dup : String) (df : DataFrame) :
    (applyDup identIx dup df).rows.length = df.rows.length := by
  unfold applyDup
  cases findCol (ensureSame df) "same" with
  | none => exact ensureSame_length df
  | some sIx => exact (List.length_map _ _).trans (ensureSame_length df)

theorem applyDup_origin (identIx : Nat) (dup : String) (df : DataFrame) :
    ∀ r2 ∈ (applyDup identIx dup df).rows, ∃ r1 ∈ df.rows, ∀ n, n ≠ "same" →
      cellAtName (applyDup identIx dup df).cols r2 n = cellAtName df.cols r1 n := by
  unfold applyDup
  cases hf : findCol (ensureSame df) "same" with
  | none =>
    exact ensureSame_origin df
  | some sIx =>
    intro r2 h2
    obtain ⟨r1, h1, rfl⟩ := List.mem_map.mp h2
    obtain ⟨r0, h0, heq⟩ := ensureSame_origin df r1 h1
    refine ⟨r0, h0, fun n hn => ?_⟩
    have hs : (ensureSame df).cols[sIx]? = some "same" := findColName hf
    exact (applyDupRow_protected _ r1 identIx sIx dup n hs hn).trans (heq n hn)

theorem combineRow_protected (cols : List String) (r : List Cell)
    (sIx identIx : Nat) (n : String) (hs : cols[sIx]? = some "same")
    (hn : n ≠ "same") :
    cellAtName cols (combineRow sIx identIx r) n = cellAtName cols r n := by
  unfold combineRow
  split
  · exact cellAtName_set_named cols r n "same" sIx _ hs hn
  · rfl

theorem combineSame_origin (sIx identIx : Nat) (df : DataFrame)
    (hs : df.cols[sIx]? = some "same") :
    ∀ r2 ∈ (combineSame sIx identIx df).rows, ∃ r1 ∈ df.rows, ∀ n, n ≠ "same" →
      cellAtName (combineSame sIx identIx df).cols r2 n = cellAtName df.cols r1 n := by
  intro r2 h2
  obtain ⟨r1, h1, rfl⟩ := List.mem_map.mp h2
  exact ⟨r1, h1, fun n hn => combineRow_protected df.cols r1 sIx identIx n hs hn⟩

theorem dropIndexCol_cols (df : DataFrame) :
    (dropIndexCol df).cols = df.cols.filter (fun c => c ≠ "index") := rfl

theorem dropIndexCol_length (df : DataFrame) :
    (dropIndexCol df).rows.length = df.rows.length := List.length_map _ _

theorem dropIndexCol_origin (df : DataFrame) :
    ∀ r2 ∈ (dropIndexCol df).rows, ∃ r1 ∈ df.rows, ∀ n, n ≠ "index" →
      cellAtName (dropIndexCol df).cols r2 n = cellAtName df.cols r1 n := by
  intro r2 h2
  obtain ⟨r1, h1, rfl⟩ := List.mem_map.mp h2
  exact ⟨r1, h1, fun n hn => cellAtName_dropIndexRow df.cols r1 n hn⟩

theorem replaceDashNan_origin (df : DataFrame) :
    ∀ r2 ∈ (replaceDashNan df).rows, ∃ r1 ∈ df.rows, ∀ n,
      cellAtName (replaceDashNan df).cols r2 n = replaceCell (cellAtName df.cols r1 n) := by
  intro r2 h2
  obtain ⟨r1, h1, rfl⟩ := List.mem_map.mp h2
  exact ⟨r1, h1, fun n => cellAtName_map_replace df.cols r1 n⟩

/-! Helper lemmas about fillSameM and getLocs. -/

theorem findCol_of_mem {df : DataFrame} {n : String} (h : n ∈ df.cols) :
    ∃ i, findCol df n = some i := by
  cases hf : findCol df n with
  | none =>
    unfold findCol at hf
    rw [List.findIdx?_eq_none_iff] at hf
    have := hf n h
    simp at this
  | some i => exact ⟨i, rfl⟩

theorem fillSameM_origin (d : List String) (column : String) :
    ∀ df out, fillSameM d column df = Except.ok out →
      ∀ r2 ∈ out.rows, ∃ r1 ∈ df.rows, ∀ n, n ≠ "same" →
        cellAtName out.cols r2 n = cellAtName df.cols r1 n := by
  induction d with
  | nil =>
    intro df out h
    cases h
    exact fun r2 h2 => ⟨r2, h2, fun n _ => rfl⟩
  | cons dup rest ih =>
    intro df out h
    unfold fillSameM at h
    revert h
    cases hf : findCol df column with
    | none => intro h; exact absurd h (by simp)
    | some i =>
      intro h r2 h2
      obtain ⟨r1, h1, heq⟩ := ih (applyDup i dup df) out h r2 h2
      obtain ⟨r0, h0, heq0⟩ := applyDup_origin i dup df r1 h1
      exact ⟨r0, h0, fun n hn => (heq n hn).trans (heq0 n hn)⟩

theorem fillSameM_cols (d : List String) (column : String) :
    ∀ df out, fillSameM d column df = Except.ok out →
      out.cols = withSameCol df.cols ∨ (d = [] ∧ out = df) := by
  induction d with
  | nil =>
    intro df out h
    cases h
    exact Or.inr ⟨rfl, rfl⟩
  | cons dup rest ih =>
    intro df out h
    unfold fillSameM at h
    revert h
    cases hf : findCol df column with
    | none => intro h; exact absurd h (by simp)
    | some i =>
      intro h
      rcases ih (applyDup i dup df) out h with hcols | ⟨_, rfl⟩
      · exact Or.inl (hcols.trans ((applyDup_cols i dup df) ▸ withSameCol_idem df.cols))
      · exact Or.inl (applyDup_cols i dup df)

theorem fillSameM_length (d : List String) (column : String) :
    ∀ df out, fillSameM d column df = Except.ok out →
      out.rows.length = df.rows.length := by
  induction d with
  | nil =>
    intro df out h
    cases h
    rfl
  | cons dup rest ih =>
    intro df out h
    unfold fillSameM at h
    revert h
    cases hf : findCol df column with
    | none => intro h; exact absurd h (by simp)
    | some i =>
      intro h
      exact (ih (applyDup i dup df) out h).trans (applyDup_length i dup df)

theorem getLocs_points (df : DataFrame) (names : List String) :
    ∀ ixs, getLocs df names = Except.ok ixs →
      ∀ j ∈ ixs, ∃ c ∈ names, findCol df c = some j := by
  induction names with
  | nil =>
    intro ixs h j hj
    cases h
    simp at hj
  | cons c rest ih =>
    intro ixs h j hj
    unfold getLocs at h
    revert h hj
    cases hf : findCol df c with
    | none => intro hj h; exact absurd h (by simp)
    | some i =>
      cases hr : getLocs df rest with
      | error e => intro hj h; exact absurd h (by simp)
      | ok is =>
        intro hj h
        have h2 : i :: is = ixs := Except.ok.inj h
        subst h2
        rcases List.mem_cons.mp hj with rfl | hjs
        · exact ⟨c, List.mem_cons_self c rest, hf⟩
        · obtain ⟨c2, hc2, hfc2⟩ := ih is hr j hjs
          exact ⟨c2, List.mem_cons_of_mem c hc2, hfc2⟩

theorem getLocs_error_of_missing (df : DataFrame) (names : List String)
    (h : ∃ c ∈ names, findCol df c = none) :
    ∃ c, getLocs df names = Except.error (DfError.keyError c) ∧ c ∈ names ∧
      findCol df c = none := by
  induction names with
  | nil => simp at h
  | cons c rest ih =>
    cases hf : findCol df c with
    | none =>
      refine ⟨c, ?_, List.mem_cons_self c rest, hf⟩
      unfold getLocs
      rw [hf]
    | some i =>
      obtain ⟨c2, hc2, hfc2⟩ := h
      rcases List.mem_cons.mp hc2 with rfl | hc2r
      · rw [hf] at hfc2; cases hfc2
      · obtain ⟨c3, herr, hmem, hnone⟩ := ih ⟨c2, hc2r, hfc2⟩
        refine ⟨c3, ?_, List.mem_cons_of_mem c hmem, hnone⟩
        unfold getLocs
        rw [hf, herr]

/-! Helper lemmas about one checker pass and the resolver pipeline. -/

theorem mem_withSameCol_elim {a : String} {cs : List String}
    (h : a ∈ withSameCol cs) : a ∈ cs ∨ a = "same" := by
  unfold withSameCol at h
  by_cases hm : "same" ∈ cs
  · rw [if_pos hm] at h
    exact Or.inl h
  · rw [if_neg hm] at h
    rcases List.mem_append.mp h with h1 | h1
    · exact Or.inl h1
    · exact Or.inr (List.mem_singleton.mp h1)

theorem checkerPass_elim {df : DataFrame} {cn : List String} {o : Bool}
    {d : List String} {col : String} {out : DataFrame}
    (h : checkerPass df cn o d col = Except.ok out) :
    ∃ df2 sIx cIx colIx sIx4,
      fillSameM d col (replaceDashNan df) = Except.ok df2 ∧
      findCol df2 "same" = some sIx ∧
      findCol df2 col = some cIx ∧
      getLocs (sortReset sIx cIx o (combineSame sIx cIx df2)) cn = Except.ok colIx ∧
      findCol (sortReset sIx cIx o (combineSame sIx cIx df2)) "same" = some sIx4 ∧
      out = dropIndexCol (DataFrame.mk
        (sortReset sIx cIx o (combineSame sIx cIx df2)).cols
        (fillLoop sIx4 colIx (sortReset sIx cIx o (combineSame sIx cIx df2)).rows)) := by
  unfold checkerPass at h
  split at h
  next e h1 => exact absurd h (by simp)
  next df2 h1 =>
    split at h
    next h2 => exact absurd h (by simp)
    next sIx h2 =>
      split at h
      next h3 => exact absurd h (by simp)
      next cIx h3 =>
        split at h
        next e h4 => exact absurd h (by simp)
        next colIx h4 =>
          split at h
          next h5 => exact absurd h (by simp)
          next sIx4 h5 =>
            exact ⟨df2, sIx, cIx, colIx, sIx4, h1, h2, h3, h4, h5,
              (Except.ok.inj h).symm⟩

theorem checkerPass_origin {df : DataFrame} {cn : List String} {o : Bool}
    {d : List String} {col : String} {out : DataFrame}
    (h : checkerPass df cn o d col = Except.ok out) :
    ∀ r2 ∈ out.rows, ∃ r0 ∈ df.rows, ∀ n, n ≠ "same" → n ≠ "index" → n ∉ cn →
      cellAtName out.cols r2 n = replaceCell (cellAtName df.cols r0 n) := by
  obtain ⟨df2, sIx, cIx, colIx, sIx4, h1, h2, h3, h4, h5, rfl⟩ := checkerPass_elim h
  intro rr hrr
  obtain ⟨r5, hr5, heq5⟩ := dropIndexCol_origin _ rr hrr
  obtain ⟨r4, hr4, heq4⟩ := fillSteps_origin sIx4 colIx _ _ r5 hr5
  obtain ⟨r3, hr3, k, rfl⟩ := sortReset_origin sIx cIx o _ r4 hr4
  obtain ⟨rc, hrc, heq3⟩ := combineSame_origin sIx cIx df2 (findColName h2) r3 hr3
  obtain ⟨r1, hr1, heq2⟩ := fillSameM_origin d col _ df2 h1 rc hrc
  obtain ⟨r0, hr0, heq0⟩ := replaceDashNan_origin df r1 hr1
  refine ⟨r0, hr0, fun n hns hni hncn => ?_⟩
  have step5 := heq5 n hni
  have step4 : cellAtName (sortReset sIx cIx o (combineSame sIx cIx df2)).cols r5 n =
      cellAtName (sortReset sIx cIx o (combineSame sIx cIx df2)).cols (Cell.nat k :: r3) n := by
    unfold cellAtName
    cases hidx : (sortReset sIx cIx o (combineSame sIx cIx df2)).cols.findIdx?
        (fun x => x = n) with
    | none => rfl
    | some p =>
      have hpn : p ∉ colIx := by
        intro hpmem
        obtain ⟨c, hccn, hfc⟩ := getLocs_points _ cn colIx h4 p hpmem
        have hcp : (sortReset sIx cIx o (combineSame sIx cIx df2)).cols[p]? = some c :=
          findColName hfc
        have hnp : (sortReset sIx cIx o (combineSame sIx cIx df2)).cols[p]? = some n :=
          findColName hidx
        rw [hcp] at hnp
        exact hncn ((Option.some.inj hnp) ▸ hccn)
      exact heq4 p hpn
  have step3 : cellAtName (sortReset sIx cIx o (combineSame sIx cIx df2)).cols
      (Cell.nat k :: r3) n = cellAtName (combineSame sIx cIx df2).cols r3 n := by
    rw [sortReset_cols]
    exact cellAtName_cons_index _ r3 (Cell.nat k) n hni
  exact ((((step5.trans step4).trans step3).trans (heq3 n hns)).trans
    (heq2 n hns)).trans (heq0 n)

theorem checkerPass_cols {df : DataFrame} {cn : List String} {o : Bool}
    {d : List String} {col : String} {out : DataFrame}
    (h : checkerPass df cn o d col = Except.ok out)
    (hd : d ≠ []) (hix : "index" ∉ df.cols) :
    out.cols = withSameCol df.cols := by
  obtain ⟨df2, sIx, cIx, colIx, sIx4, h1, h2, h3, h4, h5, rfl⟩ := checkerPass_elim h
  have hc2 : df2.cols = withSameCol df.cols := by
    rcases fillSameM_cols d col _ df2 h1 with hc | ⟨hdnil, _⟩
    · exact hc
    · exact absurd hdnil hd
  rw [dropIndexCol_cols]
  show (("index" :: df2.cols).filter (fun c => c ≠ "index")) = withSameCol df.cols
  rw [List.filter_cons, if_neg (by simp)]
  rw [List.filter_eq_self.mpr, hc2]
  intro a ha
  rw [hc2] at ha
  rcases mem_withSameCol_elim ha with hmem | rfl
  · simp only [decide_eq_true_eq]
    intro heq
    exact hix (heq ▸ hmem)
  · simp

theorem checkerPass_length {df : DataFrame} {cn : List String} {o : Bool}
    {d : List String} {col : String} {out : DataFrame}
    (h : checkerPass df cn o d col = Except.ok out) :
    out.rows.length = df.rows.length := by
  obtain ⟨df2, sIx, cIx, colIx, sIx4, h1, h2, h3, h4, h5, rfl⟩ := checkerPass_elim h
  rw [dropIndexCol_length]
  show (fillLoop sIx4 colIx (sortReset sIx cIx o (combineSame sIx cIx df2)).rows).length = _
  rw [fillLoop_length, sortReset_length]
  show ((combineSame sIx cIx df2).rows).length = _
  rw [show ((combineSame sIx cIx df2).rows).length = df2.rows.length from List.length_map _ _]
  rw [fillSameM_length d col _ df2 h1]
  exact List.length_map _ _

theorem checker_two_elim {df : DataFrame} {cn : List String} {o : Bool}
    {d : List String} {col : String} {out : DataFrame}
    (h : duplicate_column_checker df cn o 2 d col = Except.ok out) :
    ∃ df6, checkerPass df cn o d col = Except.ok df6 ∧
      checkerPass df6 cn true d "Sample" = Except.ok out := by
  have h2 : (match checkerPass df cn o d col with
      | Except.error e => Except.error e
      | Except.ok df6 =>
        match checkerPass df6 cn true d "Sample" with
        | Except.error e => Except.error e
        | Except.ok df7 => (Except.ok df7 : Except DfError DataFrame)) = Except.ok out := h
  split at h2
  next e hp1 => exact absurd h2 (by simp)
  next df6 hp1 =>
    split at h2
    next e hp2 => exact absurd h2 (by simp)
    next df7 hp2 =>
      exact ⟨df6, hp1, (Except.ok.inj h2) ▸ hp2⟩

theorem resolver_ok_elim {df : DataFrame} {col : String} {cl : List String}
    {d : List String} {w : Bool} {out : DataFrame} {wm : Option String}
    (h : duplicate_resolver df col cl d w = Except.ok (out, wm)) :
    ∃ df1 ix,
      duplicate_column_checker df cl false 2 dupEndsDefault col = Except.ok df1 ∧
      getLocs df1 cl = Except.ok ix ∧
      out = DataFrame.mk df1.cols (df1.rows.filter (fun r => identify_null_data r ix)) ∧
      ((w = true ∧ ∃ cix, findCol df1 col = some cix ∧
          wm = some (String.intercalate " "
            ((df1.rows.filter (fun r => !(identify_null_data r ix))).map
              (fun r => cellStr (r.getD cix Cell.null))))) ∨
        (w = false ∧ wm = none)) := by
  unfold duplicate_resolver at h
  split at h
  next e h1 => exact absurd h (by simp)
  next df1 h1 =>
    split at h
    next e h2 => exact absurd h (by simp)
    next ix h2 =>
      split at h
      next hw =>
        split at h
        next h3 => exact absurd h (by simp)
        next cix h3 =>
          have hpair := Except.ok.inj h
          have hout := congrArg Prod.fst hpair
          have hwm := congrArg Prod.snd hpair
          exact ⟨df1, ix, h1, h2, hout.symm, Or.inl ⟨by simpa using hw, cix, h3, hwm.symm⟩⟩
      next hw =>
        have hpair := Except.ok.inj h
        have hout := congrArg Prod.fst hpair
        have hwm := congrArg Prod.snd hpair
        exact ⟨df1, ix, h1, h2, hout.symm, Or.inr ⟨by simpa using hw, hwm.symm⟩⟩

/-! Characterization of the row-removal test. -/

theorem identify_false_iff (x : List Cell) (ix : List Nat) :
    identify_null_data x ix = false ↔
      ∀ c ∈ ix.map (fun i => x.getD i Cell.null),
        cellStr c = "nan" ∨ c = Cell.str "-" := by
  constructor
  · intro h c hc
    by_cases hnan : cellStr c = "nan"
    · exact Or.inl hnan
    · refine Or.inr ?_
      have hcF : c ∈ (ix.map (fun i => x.getD i Cell.null)).filter
          (fun z => cellStr z ≠ "nan") :=
        List.mem_filter.mpr ⟨hc, by simp [hnan]⟩
      have hcA : c ∈ all_row_cell_values x ix := List.mem_dedup.mpr hcF
      unfold identify_null_data at h
      by_cases h1 : (all_row_cell_values x ix).length = 1 ∧
          Cell.str "-" ∈ all_row_cell_values x ix
      · obtain ⟨hlen, hdash⟩ := h1
        obtain ⟨a, ha⟩ := List.length_eq_one.mp hlen
        rw [ha, List.mem_singleton] at hdash hcA
        rw [hcA, hdash]
      · rw [if_neg h1] at h
        by_cases h2 : (all_row_cell_values x ix).length = 0
        · exfalso
          rw [List.length_eq_zero] at h2
          rw [h2] at hcA
          exact absurd hcA (List.not_mem_nil c)
        · rw [if_neg h2] at h
          exact absurd h (by simp)
  · intro hall
    have hAdash : ∀ a ∈ all_row_cell_values x ix, a = Cell.str "-" := by
      intro a ha
      obtain ⟨hamem, hcond⟩ := List.mem_filter.mp (List.mem_dedup.mp ha)
      have hnan : cellStr a ≠ "nan" := by simpa using hcond
      rcases hall a hamem with hl | hr
      · exact absurd hl hnan
      · exact hr
    have hnodup : (all_row_cell_values x ix).Nodup := List.nodup_dedup _
    unfold identify_null_data
    cases hA : all_row_cell_values x ix with
    | nil => simp
    | cons a as =>
      rw [hA] at hAdash hnodup
      have ha : a = Cell.str "-" := hAdash a (List.mem_cons_self a as)
      have has : as = [] := by
        cases as with
        | nil => rfl
        | cons b bs =>
          exfalso
          have hb : b = Cell.str "-" := hAdash b (by simp)
          have hnb : a ∉ (b :: bs) := (List.nodup_cons.mp hnodup).1
          rw [ha, hb] at hnb
          exact hnb (List.mem_cons_self _ _)
      subst has
      subst ha
      simp

theorem spec_true_iff (x : List Cell) (ix : List Nat) :
    specRowDroppable x ix = true ↔
      ∀ c ∈ ix.map (fun i => x.getD i Cell.null),
        cellStr c = "nan" ∨ c = Cell.str "-" := by
  unfold specRowDroppable
  constructor
  · intro h c hc
    simp only [Bool.or_eq_true, Bool.and_eq_true, List.all_eq_true,
      decide_eq_true_eq] at h
    rcases h with hall | ⟨_, hdash⟩
    · exact Or.inl (hall c hc)
    · by_cases hnan : cellStr c = "nan"
      · exact Or.inl hnan
      · exact Or.inr (hdash c (List.mem_filter.mpr ⟨hc, by simp [hnan]⟩))
  · intro hall
    simp only [Bool.or_eq_true, Bool.and_eq_true, List.all_eq_true, decide_eq_true_eq]
    by_cases hmiss : ∀ c ∈ ix.map (fun i => x.getD i Cell.null), cellStr c = "nan"
    · exact Or.inl hmiss
    · refine Or.inr ⟨?_, ?_⟩
      · push_neg at hmiss
        obtain ⟨c0, hc0, hc0nan⟩ := hmiss
        have hc0F : c0 ∈ (ix.map (fun i => x.getD i Cell.null)).filter
            (fun c => cellStr c ≠ "nan") :=
          List.mem_filter.mpr ⟨hc0, by simp [hc0nan]⟩
        have hFne : (ix.map (fun i => x.getD i Cell.null)).filter
            (fun c => cellStr c ≠ "nan") ≠ [] := by
          intro he
          rw [he] at hc0F
          exact absurd hc0F (List.not_mem_nil c0)
        rw [Bool.not_eq_true', List.isEmpty_eq_false]
        exact hFne
      · intro c hc
        obtain ⟨hcm, hcnan⟩ := List.mem_filter.mp hc
        rcases hall c hcm with h1 | h2
        · exact absurd h1 (by simpa using hcnan)
        · exact h2

theorem identify_eq_not_spec (x : List Cell) (ix : List Nat) :
    identify_null_data x ix = !(specRowDroppable x ix) := by
  cases hsp : specRowDroppable x ix with
  | true =>
    simp only [Bool.not_true]
    exact (identify_false_iff x ix).mpr ((spec_true_iff x ix).mp hsp)
  | false =>
    simp only [Bool.not_false]
    cases hid : identify_null_data x ix with
    | true => rfl
    | false =>
      have hc := (spec_true_iff x ix).mpr ((identify_false_iff x ix).mp hid)
      rw [hsp] at hc
      exact absurd hc (by simp)

/-! Small facts about replaceCell and column membership. -/

theorem replaceCell_idem (c : Cell) : replaceCell (replaceCell c) = replaceCell c := by
  unfold replaceCell
  by_cases hc : c = Cell.str "-" <;> simp [hc]

theorem replaceCell_str {c : Cell} {s : String} (h : replaceCell c = Cell.str s) :
    c = Cell.str s := by
  unfold replaceCell at h
  split at h
  · cases h
  · exact h

theorem mem_withSameCol_of_mem {a : String} {cs : List String} (h : a ∈ cs) :
    a ∈ withSameCol cs := by
  unfold withSameCol
  split
  · exact h
  · exact List.mem_append.mpr (Or.inl h)

theorem findCol_none_of_not_mem {df : DataFrame} {c : String} (h : c ∉ df.cols) :
    findCol df c = none := by
  unfold findCol
  rw [List.findIdx?_eq_none_iff]
  intro x hx
  by_cases hxc : x = c
  · exact absurd (hxc ▸ hx) h
  · simp [hxc]

theorem mem_of_colElem {l : List String} {i : Nat} {a : String}
    (h : l[i]? = some a) : a ∈ l := by
  obtain ⟨hlt, rfl⟩ := List.getElem?_eq_some.mp h
  exact List.getElem_mem hlt

theorem fillSameM_col_mem {d : List String} {column : String} {df out : DataFrame}
    (hd : d ≠ []) (h : fillSameM d column df = Except.ok out) : column ∈ df.cols := by
  cases d with
  | nil => exact absurd rfl hd
  | cons dup rest =>
    unfold fillSameM at h
    revert h
    cases hf : findCol df column with
    | none => intro h; exact absurd h (by simp)
    | some i =>
      intro _
      exact mem_of_colElem (findColName hf)

theorem findCol_replaceDash (df : DataFrame) (c : String) :
    findCol (replaceDashNan df) c = findCol df c := rfl

theorem fillSameM_ok_of_mem (d : List String) (column : String) :
    ∀ df, column ∈ df.cols → ∃ out, fillSameM d column df = Except.ok out := by
  induction d with
  | nil => exact fun df _ => ⟨df, rfl⟩
  | cons dup rest ih =>
    intro df hmem
    obtain ⟨i, hf⟩ := findCol_of_mem hmem
    have hmem2 : column ∈ (applyDup i dup df).cols := by
      rw [applyDup_cols]
      exact mem_withSameCol_of_mem hmem
    obtain ⟨out, hout⟩ := ih (applyDup i dup df) hmem2
    refine ⟨out, ?_⟩
    unfold fillSameM
    rw [hf]
    exact hout

/-! Claim theorems. -/

/-- C1 (code bug evaluated at the failing input): with suffix list
containing only the two-character suffix, the row GH_2 is not placed in
the duplicate group of GH: after one grouping pass its group-key cell
is GH_2 itself, because line 93 demands a total identity length
strictly greater than four characters rather than a non-empty remainder
after stripping. The second conjunct is the control: the five-character
name ABC_2 is grouped under ABC, and GHI never joins a group. -/
theorem c1_grouping_at_failing_input :
    (∃ out, duplicate_column_checker dfC1 ["pheno"] false 1 ["_2"] "Sample" = Except.ok out ∧
      colCells out "same" =
        [Cell.str "GH_2", Cell.str "GHI", Cell.str "GH"] ∧
      colCells out "Sample" =
        [Cell.str "GH_2", Cell.str "GHI", Cell.str "GH"]) ∧
    (∃ out, duplicate_column_checker dfC1b ["pheno"] false 1 ["_2"] "Sample" = Except.ok out ∧
      colCells out "same" = [Cell.str "ABC", Cell.str "ABC"]) := by
  refine ⟨⟨_, rfl, ?_, ?_⟩, ⟨_, rfl, ?_⟩⟩ <;> decide

/-- C3: for the canonical row with field1 x and its duplicate row with
field2 y in the same duplicate group, the resolved output contains both
rows and both carry field1 x and field2 y: the adjacent-pair forward
fill propagates each present value to the partner row across the two
passes. -/
theorem c3_pair_mutual_fill :
    duplicate_resolver dfC3 "Sample" ["field1", "field2"] dupEndsDefault true =
      Except.ok
        (DataFrame.mk ["Sample", "field1", "field2", "same"]
          [[Cell.str "ABCD", Cell.str "x", Cell.str "y", Cell.str "ABCD"],
           [Cell.str "ABCD_2", Cell.str "x", Cell.str "y", Cell.str "ABCD"]],
         some "") := by
  rfl

/-- C9 (code bug evaluated at the failing input): when the identity
column is named id, the second pass of the checker looks up the default
column Sample (the recursive call of line 119 omits the column
argument) and the whole resolution fails with a KeyError on Sample, so
the table is never sorted by the pair of group key and identity column
on the second pass. -/
theorem c9_second_pass_uses_default_column :
    duplicate_resolver dfC9 "id" ["f1"] dupEndsDefault true =
      Except.error (DfError.keyError "Sample") := by
  rfl

/-- C2 (counterexample): a row whose reconciliation cell holds the
literal string nan is removed although that cell, after all passes, is
neither null nor the dash placeholder, so removal is not equivalent to
the claimed null-or-dash condition. -/
theorem c2_counterexample :
    duplicate_resolver dfC2 "Sample" ["f1"] dupEndsDefault true =
      Except.ok (DataFrame.mk ["Sample", "f1", "extra", "same"] [], some "ABCDE") ∧
    (∃ chk, duplicate_column_checker dfC2 ["f1"] false 2 dupEndsDefault "Sample" =
        Except.ok chk ∧
      colCells chk "f1" = [Cell.str "nan"]) ∧
    Cell.str "nan" ≠ Cell.null ∧ Cell.str "nan" ≠ Cell.str "-" := by
  refine ⟨rfl, ⟨_, rfl, by decide⟩, by decide, by decide⟩

/-- C2 (amended): a row is removed from the output if and only if,
after all reconciliation passes, every reconciliation cell of the row
is missing (null, or holding a value whose string form is nan) or the
only non-missing values among them are the dash placeholder; the test
looks only at reconciliation cells, so such a row is dropped even when
it has data in other columns. -/
theorem c2_amended_removal_iff (df : DataFrame) (col : String) (cl : List String)
    (d : List String) (w : Bool) (out : DataFrame) (wm : Option String)
    (df1 : DataFrame) (ix : List Nat)
    (h : duplicate_resolver df col cl d w = Except.ok (out, wm))
    (hchk : duplicate_column_checker df cl false 2 dupEndsDefault col = Except.ok df1)
    (hloc : getLocs df1 cl = Except.ok ix) :
    out.rows = df1.rows.filter (fun r => !(specRowDroppable r ix)) := by
  obtain ⟨df1x, ixx, hchkx, hlocx, hout, _⟩ := resolver_ok_elim h
  rw [hchk] at hchkx
  cases Except.ok.inj hchkx
  rw [hloc] at hlocx
  cases Except.ok.inj hlocx
  rw [hout]
  exact List.filter_congr (fun r _ => identify_eq_not_spec r ix)

/-- C4: the resolver fabricates no rows: the output has at most as many
rows as the input, and every string value in the identity column of the
output already occurs in the identity column of the input. Stated for
calls whose identity column is not itself a reconciliation column and
for tables without the reserved working labels same and index. -/
theorem c4_no_fabricated_rows (df : DataFrame) (col : String) (cl : List String)
    (d : List String) (w : Bool) (out : DataFrame) (wm : Option String)
    (hs : "same" ∉ df.cols) (hix : "index" ∉ df.cols) (hcol : col ∉ cl)
    (h : duplicate_resolver df col cl d w = Except.ok (out, wm)) :
    out.rows.length ≤ df.rows.length ∧
    ∀ r2 ∈ out.rows, ∀ s, cellAtName out.cols r2 col = Cell.str s →
      ∃ r0 ∈ df.rows, cellAtName df.cols r0 col = Cell.str s := by
  obtain ⟨df1, ix, hchk, hloc, hout, _⟩ := resolver_ok_elim h
  obtain ⟨df6, hp1, hp2⟩ := checker_two_elim hchk
  constructor
  · rw [hout]
    calc (df1.rows.filter (fun r => identify_null_data r ix)).length
        ≤ df1.rows.length := List.length_filter_le _ _
      _ = df6.rows.length := checkerPass_length hp2
      _ = df.rows.length := checkerPass_length hp1
  · intro r2 hr2 s hcell
    have hcolmem : col ∈ df.cols := by
      obtain ⟨df2, sIx, cIx, colIx, sIx4, h1, _, _, _, _, _⟩ := checkerPass_elim hp1
      have h1m : col ∈ (replaceDashNan df).cols :=
        fillSameM_col_mem (show dupEndsDefault ≠ [] by simp [dupEndsDefault]) h1
      exact h1m
    have hcs : col ≠ "same" := fun he => hs (he ▸ hcolmem)
    have hci : col ≠ "index" := fun he => hix (he ▸ hcolmem)
    have hr2m : r2 ∈ df1.rows := by
      rw [hout] at hr2
      exact (List.mem_filter.mp hr2).1
    obtain ⟨r6, hr6, heqB⟩ := checkerPass_origin hp2 r2 hr2m
    obtain ⟨r0, hr0, heqA⟩ := checkerPass_origin hp1 r6 hr6
    refine ⟨r0, hr0, ?_⟩
    have hoc : cellAtName out.cols r2 col = cellAtName df1.cols r2 col := by rw [hout]
    rw [hoc, heqB col hcs hci hcol, heqA col hcs hci hcol] at hcell
    exact replaceCell_str (replaceCell_str hcell)

/-- C5 (counterexample): a dash in a column outside the reconciliation
set is replaced by null in the output, so columns outside the
reconciliation set are not passed through with their values unaltered. -/
theorem c5_counterexample :
    duplicate_resolver dfC5 "Sample" ["f1"] dupEndsDefault true =
      Except.ok (DataFrame.mk ["Sample", "f1", "notes", "same"]
        [[Cell.str "ABCDE", Cell.str "x", Cell.null, Cell.str "ABCDE"]], some "") ∧
    cellAtName dfC5.cols (dfC5.rows.getD 0 []) "notes" = Cell.str "-" ∧
    Cell.null ≠ Cell.str "-" := by
  refine ⟨rfl, by decide, by decide⟩

/-- C5 (amended): every surviving row of the output stems from an input
row whose values in the columns outside the reconciliation set are
carried over unaltered except that dash placeholder cells are replaced
by null, since the normalization of line 89 is applied table-wide.
Stated for tables without the reserved working labels same and index. -/
theorem c5_amended_frame (df : DataFrame) (col : String) (cl : List String)
    (d : List String) (w : Bool) (out : DataFrame) (wm : Option String)
    (hs : "same" ∉ df.cols) (hix : "index" ∉ df.cols)
    (h : duplicate_resolver df col cl d w = Except.ok (out, wm)) :
    ∀ r2 ∈ out.rows, ∃ r0 ∈ df.rows, ∀ n, n ∈ df.cols → n ∉ cl →
      cellAtName out.cols r2 n = replaceCell (cellAtName df.cols r0 n) := by
  obtain ⟨df1, ix, hchk, hloc, hout, _⟩ := resolver_ok_elim h
  obtain ⟨df6, hp1, hp2⟩ := checker_two_elim hchk
  intro r2 hr2
  have hr2m : r2 ∈ df1.rows := by
    rw [hout] at hr2
    exact (List.mem_filter.mp hr2).1
  obtain ⟨r6, hr6, heqB⟩ := checkerPass_origin hp2 r2 hr2m
  obtain ⟨r0, hr0, heqA⟩ := checkerPass_origin hp1 r6 hr6
  refine ⟨r0, hr0, fun n hmem hncl => ?_⟩
  have hnsame : n ≠ "same" := fun he => hs (he ▸ hmem)
  have hnindex : n ≠ "index" := fun he => hix (he ▸ hmem)
  have hoc : cellAtName out.cols r2 n = cellAtName df1.cols r2 n := by rw [hout]
  rw [hoc, heqB n hnsame hnindex hncl, heqA n hnsame hnindex hncl]
  exact replaceCell_idem _

/-- C6 (counterexample): the output of the resolver carries the
group-key column same in addition to the input columns, so the output
does not have exactly the input columns. -/
theorem c6_counterexample :
    duplicate_resolver dfC6 "Sample" ["f1"] dupEndsDefault true =
      Except.ok (DataFrame.mk ["Sample", "f1", "same"]
        [[Cell.str "ABCDE_2", Cell.str "x", Cell.str "ABCDE"]], some "") ∧
    ["Sample", "f1", "same"] ≠ dfC6.cols := by
  refine ⟨rfl, by decide⟩

/-- C6 (amended): each pass drops the temporary index column created by
the re-sorting, but the group-key column same persists: the output
table has exactly the input columns followed by same. Stated for tables
without the reserved working labels same and index. -/
theorem c6_amended_columns (df : DataFrame) (col : String) (cl : List String)
    (d : List String) (w : Bool) (out : DataFrame) (wm : Option String)
    (hs : "same" ∉ df.cols) (hix : "index" ∉ df.cols)
    (h : duplicate_resolver df col cl d w = Except.ok (out, wm)) :
    out.cols = df.cols ++ ["same"] := by
  obtain ⟨df1, ix, hchk, hloc, hout, _⟩ := resolver_ok_elim h
  obtain ⟨df6, hp1, hp2⟩ := checker_two_elim hchk
  have hd : dupEndsDefault ≠ [] := by simp [dupEndsDefault]
  have h6cols : df6.cols = withSameCol df.cols := checkerPass_cols hp1 hd hix
  have hix6 : "index" ∉ df6.cols := by
    rw [h6cols]
    intro hmem
    rcases mem_withSameCol_elim hmem with hm | he
    · exact hix hm
    · exact absurd he (by decide)
  have h1cols : df1.cols = withSameCol df6.cols := checkerPass_cols hp2 hd hix6
  rw [hout]
  show df1.cols = df.cols ++ ["same"]
  rw [h1cols, h6cols, withSameCol_idem]
  unfold withSameCol
  rw [if_neg hs]

/-- C7 (counterexample): with warn set the resolver emits its
diagnostic even when no row is dropped; the single input row survives,
yet the result carries a warning whose dropped-value list is empty. -/
theorem c7_counterexample :
    duplicate_resolver dfC7 "Sample" ["f1"] dupEndsDefault true =
      Except.ok (DataFrame.mk ["Sample", "f1", "same"]
        [[Cell.str "ABCDE", Cell.str "x", Cell.str "ABCDE"]], some "") ∧
    dfC7.rows.length = 1 := by
  refine ⟨rfl, rfl⟩

/-- C7 (amended): with warn set the resolver emits exactly one
diagnostic per call, whether or not rows are dropped, and its variable
part is the space-joined identity values of the dropped rows (the empty
string when none are dropped); with warn unset no diagnostic is
emitted. -/
theorem c7_amended_warning (df : DataFrame) (col : String) (cl : List String)
    (d : List String) :
    (∀ out wm df1 ix cix,
      duplicate_resolver df col cl d true = Except.ok (out, wm) →
      duplicate_column_checker df cl false 2 dupEndsDefault col = Except.ok df1 →
      getLocs df1 cl = Except.ok ix →
      findCol df1 col = some cix →
      wm = some (String.intercalate " "
        ((df1.rows.filter (fun r => !(identify_null_data r ix))).map
          (fun r => cellStr (r.getD cix Cell.null))))) ∧
    (∀ out wm, duplicate_resolver df col cl d false = Except.ok (out, wm) →
      wm = none) := by
  constructor
  · intro out wm df1 ix cix h hchk hloc hfc
    obtain ⟨df1x, ixx, hchkx, hlocx, _, hw⟩ := resolver_ok_elim h
    rw [hchk] at hchkx
    cases Except.ok.inj hchkx
    rw [hloc] at hlocx
    cases Except.ok.inj hlocx
    rcases hw with ⟨_, cixx, hfcx, hwm⟩ | ⟨hfalse, _⟩
    · rw [hfc] at hfcx
      cases Option.some.inj hfcx
      exact hwm
    · cases hfalse
  · intro out wm h
    obtain ⟨df1x, ixx, hchkx, hlocx, _, hw⟩ := resolver_ok_elim h
    rcases hw with ⟨htrue, _⟩ | ⟨_, hwm⟩
    · cases htrue
    · exact hwm

/-- C8 (counterexample): an empty reconciliation column list is not
rejected with an invalid-argument error: the resolver returns normally
and, because the removal test then sees no values at all, every row is
dropped. -/
theorem c8_counterexample :
    duplicate_resolver dfC8 "Sample" [] dupEndsDefault true =
      Except.ok (DataFrame.mk ["Sample", "f1", "same"] [], some "ABCDE") := by
  rfl

/-- C10: the removal test treats any cell whose string form is nan as
missing, so a row of the reconciled table whose reconciliation cells
all have string form nan or hold the dash placeholder is removed from
the output. -/
theorem c10_nan_string_rows_removed (df : DataFrame) (col : String)
    (cl : List String) (d : List String) (w : Bool) (out : DataFrame)
    (wm : Option String) (df1 : DataFrame) (ix : List Nat)
    (h : duplicate_resolver df col cl d w = Except.ok (out, wm))
    (hchk : duplicate_column_checker df cl false 2 dupEndsDefault col = Except.ok df1)
    (hloc : getLocs df1 cl = Except.ok ix)
    (r : List Cell) (_hr : r ∈ df1.rows)
    (hmiss : ∀ i ∈ ix, cellStr (r.getD i Cell.null) = "nan" ∨
      r.getD i Cell.null = Cell.str "-") :
    r ∉ out.rows := by
  obtain ⟨df1x, ixx, hchkx, hlocx, hout, _⟩ := resolver_ok_elim h
  rw [hchk] at hchkx
  cases Except.ok.inj hchkx
  rw [hloc] at hlocx
  cases Except.ok.inj hlocx
  have hfalse : identify_null_data r ix = false := by
    rw [identify_false_iff]
    intro c hc
    obtain ⟨i, hi, rfl⟩ := List.mem_map.mp hc
    exact hmiss i hi
  intro hmem
  rw [hout] at hmem
  have := (List.mem_filter.mp hmem).2
  rw [hfalse] at this
  cases this

/-- C8 (amended): the resolver fails with a KeyError naming the
identity column whenever that column is absent, and fails with a
KeyError naming a missing reconciliation column whenever the identity
column is present but some reconciliation column is absent; Except
yields no partial result on such failures. An empty reconciliation
list, however, is not rejected (see the counterexample: all rows are
dropped instead). The second part is stated for tables and lists
without the reserved working labels same and index. -/
theorem c8_amended_errors :
    (∀ (df : DataFrame) (col : String) (cl d : List String) (w : Bool),
      col ∉ df.cols →
      duplicate_resolver df col cl d w = Except.error (DfError.keyError col)) ∧
    (∀ (df : DataFrame) (col : String) (cl d : List String) (w : Bool),
      "same" ∉ df.cols → "index" ∉ df.cols → "same" ∉ cl → "index" ∉ cl →
      col ∈ df.cols → (∃ c ∈ cl, c ∉ df.cols) →
      ∃ c, duplicate_resolver df col cl d w = Except.error (DfError.keyError c) ∧
        c ∈ cl ∧ c ∉ df.cols) := by
  constructor
  · intro df col cl d w hnone
    have hfc : findCol df col = none := findCol_none_of_not_mem hnone
    have hfill : fillSameM dupEndsDefault col (replaceDashNan df) =
        Except.error (DfError.keyError col) := by
      show fillSameM ("_2" :: ["_3", "_pool7A", "_pool10A"]) col (replaceDashNan df) = _
      unfold fillSameM
      simp only [findCol_replaceDash, hfc]
    have hpass : checkerPass df cl false dupEndsDefault col =
        Except.error (DfError.keyError col) := by
      unfold checkerPass
      simp only [hfill]
    have hchk : duplicate_column_checker df cl false 2 dupEndsDefault col =
        Except.error (DfError.keyError col) := by
      have hstep : (match checkerPass df cl false dupEndsDefault col with
          | Except.error e => Except.error e
          | Except.ok df6 =>
            duplicate_column_checker df6 cl true 1 dupEndsDefault "Sample") =
          Except.error (DfError.keyError col) := by
        simp only [hpass]
      exact hstep
    unfold duplicate_resolver
    simp only [hchk]
  · intro df col cl d w hsame hindex hclsame hclindex hcolmem hmissing
    obtain ⟨df2, hfill⟩ := fillSameM_ok_of_mem dupEndsDefault col (replaceDashNan df)
      (show col ∈ (replaceDashNan df).cols from hcolmem)
    have h2cols : df2.cols = withSameCol df.cols := by
      rcases fillSameM_cols dupEndsDefault col _ df2 hfill with hc | ⟨hnil, _⟩
      · exact hc
      · simp [dupEndsDefault] at hnil
    obtain ⟨sIx, hsIx⟩ := findCol_of_mem
      (show "same" ∈ df2.cols by rw [h2cols]; exact mem_withSameCol df.cols)
    obtain ⟨cIx, hcIx⟩ := findCol_of_mem
      (show col ∈ df2.cols by rw [h2cols]; exact mem_withSameCol_of_mem hcolmem)
    have hmissing4 : ∃ c ∈ cl,
        findCol (sortReset sIx cIx false (combineSame sIx cIx df2)) c = none := by
      obtain ⟨c, hccl, hcnot⟩ := hmissing
      refine ⟨c, hccl, findCol_none_of_not_mem ?_⟩
      rw [sortReset_cols]
      intro hmem
      rcases List.mem_cons.mp hmem with rfl | hmem2
      · exact hclindex hccl
      · have hm2 : c ∈ df2.cols := hmem2
        rw [h2cols] at hm2
        rcases mem_withSameCol_elim hm2 with hm | rfl
        · exact hcnot hm
        · exact hclsame hccl
    obtain ⟨ce, herr, hcemem, hcenone⟩ := getLocs_error_of_missing _ cl hmissing4
    have hce_not : ce ∉ df.cols := by
      intro hmem
      have hmem4 : ce ∈ (sortReset sIx cIx false (combineSame sIx cIx df2)).cols := by
        rw [sortReset_cols]
        refine List.mem_cons_of_mem _ ?_
        show ce ∈ df2.cols
        rw [h2cols]
        exact mem_withSameCol_of_mem hmem
      obtain ⟨j, hj⟩ := findCol_of_mem hmem4
      rw [hcenone] at hj
      cases hj
    have hpass : checkerPass df cl false dupEndsDefault col =
        Except.error (DfError.keyError ce) := by
      unfold checkerPass
      simp only [hfill, hsIx, hcIx, herr]
    have hchk : duplicate_column_checker df cl false 2 dupEndsDefault col =
        Except.error (DfError.keyError ce) := by
      have hstep : (match checkerPass df cl false dupEndsDefault col with
          | Except.error e => Except.error e
          | Except.ok df6 =>
            duplicate_column_checker df6 cl true 1 dupEndsDefault "Sample") =
          Except.error (DfError.keyError ce) := by
        simp only [hpass]
      exact hstep
    refine ⟨ce, ?_, hcemem, hce_not⟩
    unfold duplicate_resolver
    simp only [hchk]

/-- Witness for C2 (amended), at a two-row table with one null
reconciliation cell. -/
theorem c2_amended_witness :
    (DataFrame.mk ["Sample", "f1", "same"]
      [[Cell.str "ABCDE", Cell.str "x", Cell.str "ABCDE"]]).rows =
      (DataFrame.mk ["Sample", "f1", "same"]
        [[Cell.str "FGHIJ", Cell.null, Cell.str "FGHIJ"],
         [Cell.str "ABCDE", Cell.str "x", Cell.str "ABCDE"]]).rows.filter
        (fun r => !(specRowDroppable r [1])) :=
  c2_amended_removal_iff dfC2w "Sample" ["f1"] dupEndsDefault true
    (DataFrame.mk ["Sample", "f1", "same"]
      [[Cell.str "ABCDE", Cell.str "x", Cell.str "ABCDE"]])
    (some "FGHIJ")
    (DataFrame.mk ["Sample", "f1", "same"]
      [[Cell.str "FGHIJ", Cell.null, Cell.str "FGHIJ"],
       [Cell.str "ABCDE", Cell.str "x", Cell.str "ABCDE"]])
    [1] rfl rfl rfl

/-- Witness for C4, at a three-row table with a duplicate pair and a
dropped row. -/
theorem c4_no_fabricated_rows_witness :
    (DataFrame.mk ["Sample", "f1", "same"]
      [[Cell.str "ABCD", Cell.str "x", Cell.str "ABCD"],
       [Cell.str "ABCD_2", Cell.str "x", Cell.str "ABCD"]]).rows.length ≤
      dfC4w.rows.length ∧
    (∃ r0 ∈ dfC4w.rows, cellAtName dfC4w.cols r0 "Sample" = Cell.str "ABCD_2") := by
  have happ := c4_no_fabricated_rows dfC4w "Sample" ["f1"] dupEndsDefault true
    (DataFrame.mk ["Sample", "f1", "same"]
      [[Cell.str "ABCD", Cell.str "x", Cell.str "ABCD"],
       [Cell.str "ABCD_2", Cell.str "x", Cell.str "ABCD"]])
    (some "KLMNO") (by decide) (by decide) (by decide) rfl
  exact ⟨happ.1, happ.2 [Cell.str "ABCD_2", Cell.str "x", Cell.str "ABCD"] (by decide)
    "ABCD_2" (by decide)⟩

/-- Witness for C5 (amended), at the filled duplicate row of a two-row
table with a pass-through column. -/
theorem c5_amended_witness :
    ∃ r0 ∈ dfC5w.rows, ∀ n, n ∈ dfC5w.cols → n ∉ ["f1"] →
      cellAtName (DataFrame.mk ["Sample", "f1", "notes", "same"]
        [[Cell.str "ABCD", Cell.str "x", Cell.str "p", Cell.str "ABCD"],
         [Cell.str "ABCD_2", Cell.str "x", Cell.str "q", Cell.str "ABCD"]]).cols
        [Cell.str "ABCD_2", Cell.str "x", Cell.str "q", Cell.str "ABCD"] n =
      replaceCell (cellAtName dfC5w.cols r0 n) :=
  c5_amended_frame dfC5w "Sample" ["f1"] dupEndsDefault true
    (DataFrame.mk ["Sample", "f1", "notes", "same"]
      [[Cell.str "ABCD", Cell.str "x", Cell.str "p", Cell.str "ABCD"],
       [Cell.str "ABCD_2", Cell.str "x", Cell.str "q", Cell.str "ABCD"]])
    (some "") (by decide) (by decide) rfl
    [Cell.str "ABCD_2", Cell.str "x", Cell.str "q", Cell.str "ABCD"] (by decide)

/-- Witness for C6 (amended), at a one-row table with a duplicate name. -/
theorem c6_amended_witness :
    (DataFrame.mk ["Sample", "f1", "same"]
      [[Cell.str "ABCDE_2", Cell.str "x", Cell.str "ABCDE"]]).cols =
      dfC6.cols ++ ["same"] :=
  c6_amended_columns dfC6 "Sample" ["f1"] dupEndsDefault true
    (DataFrame.mk ["Sample", "f1", "same"]
      [[Cell.str "ABCDE_2", Cell.str "x", Cell.str "ABCDE"]])
    (some "") (by decide) (by decide) rfl

/-- Witness for C7 (amended), at a table where one row is dropped. -/
theorem c7_amended_witness :
    some "FGHIJ" = some (String.intercalate " "
      (((DataFrame.mk ["Sample", "f1", "same"]
          [[Cell.str "FGHIJ", Cell.null, Cell.str "FGHIJ"],
           [Cell.str "ABCDE", Cell.str "x", Cell.str "ABCDE"]]).rows.filter
          (fun r => !(identify_null_data r [1]))).map
        (fun r => cellStr (r.getD 0 Cell.null)))) ∧
    (none : Option String) = none := by
  refine ⟨(c7_amended_warning dfC7w "Sample" ["f1"] dupEndsDefault).1
    (DataFrame.mk ["Sample", "f1", "same"]
      [[Cell.str "ABCDE", Cell.str "x", Cell.str "ABCDE"]])
    (some "FGHIJ")
    (DataFrame.mk ["Sample", "f1", "same"]
      [[Cell.str "FGHIJ", Cell.null, Cell.str "FGHIJ"],
       [Cell.str "ABCDE", Cell.str "x", Cell.str "ABCDE"]])
    [1] 0 rfl rfl rfl rfl, ?_⟩
  exact (c7_amended_warning dfC7w "Sample" ["f1"] dupEndsDefault).2
    (DataFrame.mk ["Sample", "f1", "same"]
      [[Cell.str "ABCDE", Cell.str "x", Cell.str "ABCDE"]])
    none rfl

/-- Witness for C8 (amended): a missing identity column and a missing
reconciliation column each raise a KeyError naming the column. -/
theorem c8_amended_witness :
    duplicate_resolver (DataFrame.mk ["a"] []) "Sample" ["f1"] dupEndsDefault true =
      Except.error (DfError.keyError "Sample") ∧
    (∃ c, duplicate_resolver dfC8 "Sample" ["f1", "zz"] dupEndsDefault true =
        Except.error (DfError.keyError c) ∧ c ∈ ["f1", "zz"] ∧ c ∉ dfC8.cols) := by
  refine ⟨c8_amended_errors.1 (DataFrame.mk ["a"] []) "Sample" ["f1"] dupEndsDefault
    true (by decide), ?_⟩
  exact c8_amended_errors.2 dfC8 "Sample" ["f1", "zz"] dupEndsDefault true (by decide)
    (by decide) (by decide) (by decide) (by decide) ⟨"zz", by decide, by decide⟩

/-- Witness for C10: the row whose reconciliation cell holds the
literal string nan is absent from the output. -/
theorem c10_witness :
    [Cell.str "ABCDE", Cell.str "nan", Cell.str "ABCDE"] ∉
      (DataFrame.mk ["Sample", "f1", "same"]
        [[Cell.str "FGHIJ", Cell.str "x", Cell.str "FGHIJ"]]).rows :=
  c10_nan_string_rows_removed dfC10 "Sample" ["f1"] dupEndsDefault true
    (DataFrame.mk ["Sample", "f1", "same"]
      [[Cell.str "FGHIJ", Cell.str "x", Cell.str "FGHIJ"]])
    (some "ABCDE")
    (DataFrame.mk ["Sample", "f1", "same"]
      [[Cell.str "FGHIJ", Cell.str "x", Cell.str "FGHIJ"],
       [Cell.str "ABCDE", Cell.str "nan", Cell.str "ABCDE"]])
    [1] rfl rfl rfl
    [Cell.str "ABCDE", Cell.str "nan", Cell.str "ABCDE"] (by decide) (by decide)
